import Mathlib

/-!
Shallow embedding of the digis-app socket-migration utilities
(`backend/fix_all_socket_orphans.py`, `backend/fix_socket_comments.py`,
`backend/migrate_to_ably.py`, `backend/migrate_todos.py`).

Files are modelled as lists of lines, a line being a `List Char`; this matches
the scripts, which split the file content on newline characters (so lines never
contain a newline) and join them back on write.  Python string operations are
translated one-for-one: `strip`/`lstrip` drop the same whitespace characters,
`in` is contiguous-substring containment, `count` counts character occurrences.
The two regular expressions of `migrate_to_ably.py`, the one of
`migrate_todos.py` and the marker regex of `fix_all_socket_orphans.py` are
compiled by hand into deterministic scanners; a comment at each one records why
Python's backtracking collapses to the deterministic reading.
-/

abbrev Line := List Char

abbrev Doc := List Line

/-- Whitespace characters stripped by Python's `str.strip`. -/
def pyWS (c : Char) : Bool :=
  c == ' ' || c == '\t' || c == '\n' || c == '\r' || c == '\x0b' || c == '\x0c'

/-- Python `str.lstrip()`. -/
def pyLStrip (l : Line) : Line := l.dropWhile pyWS

/-- Python `str.rstrip()`. -/
def pyRStrip (l : Line) : Line := (l.reverse.dropWhile pyWS).reverse

/-- Python `str.strip()`. -/
def pyStrip (l : Line) : Line := pyRStrip (pyLStrip l)

/-- Python `needle in hay`: contiguous-substring containment. -/
def pyIn (needle hay : Line) : Bool := decide (needle <:+: hay)

/-- Python `len(l) - len(l.lstrip())`: the width of the leading whitespace. -/
def indentOf (l : Line) : Nat := (l.takeWhile pyWS).length

/-- `' ' * n`. -/
def spaces (n : Nat) : Line := List.replicate n ' '

/-- Number of occurrences of character `c` in `l` (Python `l.count(c)`). -/
def pyCount (l : Line) (c : Char) : Nat := l.countP (fun x => x == c)

/-- `'\n'.join(doc)` (also the inverse of `content.split('\n')`). -/
def joinLines : Doc → Line
  | [] => []
  | [l] => l
  | l :: ls => l ++ '\n' :: joinLines ls

/-- Quote characters of the regex class `['"\x60]`. -/
def isQ3 (c : Char) : Bool := c == '\'' || c == '"' || c == '\x60'

/-- Characters of the regex class `['"\x60)]`. -/
def isQ4 (c : Char) : Bool := isQ3 c || c == ')'

/-- Anchored match of the first `migrate_to_ably.py` pattern
`io\.to\(['"\x60]([^'"\x60)]+)['"\x60)]\.emit\(['"\x60]([^'"\x60]+)['"\x60]`
at the head of `s`, returning the two capture groups.  Each greedy `[^...]+`
group is followed by a character class disjoint from the group's class, so
Python's backtracking is forced to the maximal run: shortening the group would
leave a group-class character under the following one-character class, which
cannot match.  The translation is therefore deterministic. -/
def rx1At (s : Line) : Option (Line × Line) :=
  if ("io.to(".data).isPrefixOf s then
    match s.drop 6 with
    | [] => none
    | c0 :: t1 =>
      if isQ3 c0 then
        let g1 := t1.takeWhile (fun c => !isQ4 c)
        if g1.isEmpty then none else
        match t1.drop g1.length with
        | [] => none
        | c1 :: u1 =>
          if isQ4 c1 && (".emit(".data).isPrefixOf u1 then
            match u1.drop 6 with
            | [] => none
            | c2 :: v1 =>
              if isQ3 c2 then
                let g2 := v1.takeWhile (fun c => !isQ3 c)
                if g2.isEmpty then none else
                match v1.drop g2.length with
                | [] => none
                | c3 :: _ => if isQ3 c3 then some (g1, g2) else none
              else none
          else none
      else none
  else none

/-- `re.search` driver: try an anchored matcher at every start position, left to
right, and return the leftmost success. -/
def searchFrom {α : Type} (f : Line → Option α) : Line → Option α
  | [] => f []
  | c :: cs =>
    match f (c :: cs) with
    | some r => some r
    | none => searchFrom f cs

/-- `re.search` with the first `migrate_to_ably.py` pattern. -/
def rx1 (s : Line) : Option (Line × Line) := searchFrom rx1At s

/-- Anchored match of the second (template-literal) `migrate_to_ably.py` pattern
`io\.to\(\x60([^\x60]+)\x60\)\.emit\(['"\x60]([^'"\x60]+)['"\x60]` at the head
of `s`.  As in `rx1At`, both greedy groups are followed by characters excluded
from the group class, so no backtracking can occur. -/
def rx2At (s : Line) : Option (Line × Line) :=
  if (("io.to(".data) ++ ['\x60']).isPrefixOf s then
    let t := s.drop 7
    let g1 := t.takeWhile (fun c => c != '\x60')
    if g1.isEmpty then none else
    if ("\x60).emit(".data).isPrefixOf (t.drop g1.length) then
      match t.drop (g1.length + 8) with
      | [] => none
      | c2 :: v1 =>
        if isQ3 c2 then
          let g2 := v1.takeWhile (fun c => !isQ3 c)
          if g2.isEmpty then none else
          match v1.drop g2.length with
          | [] => none
          | c3 :: _ => if isQ3 c3 then some (g1, g2) else none
        else none
    else none
  else none

/-- `re.search` with the second `migrate_to_ably.py` pattern. -/
def rx2 (s : Line) : Option (Line × Line) := searchFrom rx2At s

/-- Lazy-group scanner for the `migrate_todos.py` pattern
`io\.to\((.*?)\)\.emit\('([^']+)'` after the literal `io.to(` has been
consumed.  The lazy group `(.*?)` tries the shortest extension first, so we
test the continuation `\)\.emit\('([^']+)'` before consuming each further
character into the group (`accRev` holds the group read so far, reversed).
The `[^']+` group is greedy and followed by `'`, which its class excludes, so
it is the maximal run. -/
def rxTodosTail : Line → Line → Option (Line × Line)
  | _, [] => none
  | accRev, c :: cs =>
    if (").emit('".data).isPrefixOf (c :: cs) then
      let w := (c :: cs).drop 8
      let g2 := w.takeWhile (fun x => x != '\'')
      match g2, w.drop g2.length with
      | [], _ => rxTodosTail (c :: accRev) cs
      | _, [] => rxTodosTail (c :: accRev) cs
      | _, q :: _ =>
        if q == '\'' then some (accRev.reverse, g2) else rxTodosTail (c :: accRev) cs
    else rxTodosTail (c :: accRev) cs

/-- Anchored match of the `migrate_todos.py` pattern at the head of `s`. -/
def rxTodosAt (s : Line) : Option (Line × Line) :=
  if ("io.to(".data).isPrefixOf s then rxTodosTail [] (s.drop 6) else none

/-- `re.search` with the `migrate_todos.py` pattern. -/
def rxTodos (s : Line) : Option (Line × Line) := searchFrom rxTodosAt s

/-- Does `s` match `\s*\x7b\s*` up to the end (the tail of the
`fix_all_socket_orphans.py` marker regex after its comma)? -/
def commaClose (s : Line) : Bool :=
  match s.dropWhile pyWS with
  | c :: rest => c == '\x7b' && rest.all pyWS
  | [] => false

/-- Does `s` match `.*,\s*\x7b\s*$`, i.e. does some `,` in `s` have only
`\s*\x7b\s*` after it? -/
def anyCommaClose : Line → Bool
  | [] => false
  | c :: cs => (c == ',' && commaClose cs) || anyCommaClose cs

/-- Does `s` match `.*\)\.emit\(.*,\s*\x7b\s*$`: some occurrence of `).emit(`
followed by a tail accepted by `anyCommaClose`? -/
def emitThen : Line → Bool
  | [] => false
  | c :: cs =>
    ((").emit(".data).isPrefixOf (c :: cs) && anyCommaClose ((c :: cs).drop 7))
      || emitThen cs

/-- Anchored match of the `fix_all_socket_orphans.py` marker regex
`//\s+(io\.to\(.*\)\.emit\(.*,\s*\x7b)\s*$` at the head of `s` (as a Boolean:
the script only tests the match).  The greedy `\s+` is followed by the literal
`i`, a non-whitespace character, so it must be the maximal whitespace run; the
two `.*` pieces are unconstrained, so they amount to the existential scans
`emitThen` and `anyCommaClose`.  Lines produced by `split('\n')` contain no
newline, so `.` (any-but-newline) is any character and `$` is end of string. -/
def orphanAt (s : Line) : Bool :=
  ("//".data).isPrefixOf s &&
    (let t := s.drop 2
     let w := (t.takeWhile pyWS).length
     decide (1 ≤ w) && ("io.to(".data).isPrefixOf (t.drop w) && emitThen (t.drop (w + 6)))

/-- Boolean `re.search` driver for `orphanAt`. -/
def anyDrop (f : Line → Bool) : Line → Bool
  | [] => f []
  | c :: cs => f (c :: cs) || anyDrop f cs

/-- `re.search(r'//\s+(io\.to\(.*\)\.emit\(.*,\s*\x7b)\s*$', line)` as a
Boolean: the marker test of `fix_all_socket_orphans.py`. -/
def isOrphanMarker (s : Line) : Bool := anyDrop orphanAt s

example : rx1 (("// io.to('room:42').emit('update', \x7b").data) = none := by decide

example : rx2 (("// io.to(\x60user:$\x7buserId\x7d\x60).emit('update', \x7b").data)
    = some (("user:$\x7buserId\x7d").data, ("update").data) := by decide

example : rxTodos (("// io.to('room:42').emit('update', \x7b").data)
    = some (("'room:42'").data, ("update").data) := by decide

example : isOrphanMarker (("//   io.to(a).emit(b, \x7b").data) = true := by decide

example : isOrphanMarker (("//   io.to(a).emit(b)").data) = false := by decide

/-- `' ' * indent + '// ' + line.lstrip()`: how both fixer scripts comment out
a line in place. -/
def commentLine (l : Line) : Line := spaces (indentOf l) ++ ("// ".data) ++ pyLStrip l

/-- Apply `commentLine` at index `j` of the document (`lines[j] = ...`). -/
def commentAt (doc : Doc) (j : Nat) : Doc := doc.set j (commentLine (doc.getD j []))

/-- Comment every collected index, in collection order (the
`for line_num in properties_to_comment` loop of `fix_all_socket_orphans.py`). -/
def commentAll (doc : Doc) (idxs : List Nat) : Doc := idxs.foldl commentAt doc

/-- Net brace count of a line as `fix_all_socket_orphans.py` computes it:
`stripped.count('\x7b') - stripped.count('\x7d')` (the script guards each update
with an `in` test, which is redundant since the count is then nonzero). -/
def netBraces (l : Line) : Int :=
  (pyCount (pyStrip l) '\x7b' : Int) - (pyCount (pyStrip l) '\x7d' : Int)

/-- The inner scan of `fix_all_socket_orphans.fix_file` (lines 36-57): walk the
lines after the marker with a brace counter, collecting the indices of
uncommented nonempty lines while the counter stays positive, and of the closing
line (if it is uncommented and contains `\x7d`) when the counter reaches zero.
Returns the collected indices and `some j` for the closing line's index (or
`none` when the loop ran out of lines or the counter jumped below zero, in
which case Python's `while` guard stops the scan). `j` is the absolute index of
the first line of the list, `bc` the current `brace_count`. -/
def fixAllScan : Doc → Nat → Int → (List Nat × Option Nat)
  | [], _, _ => ([], none)
  | r :: rs, j, bc =>
    if bc ≤ 0 then ([], none)
    else
      let st := pyStrip r
      let bc2 := bc + netBraces r
      if bc2 = 0 then
        ((if !(("//".data).isPrefixOf st) && st.contains '\x7d' then [j] else []), some j)
      else
        ((if !(("//".data).isPrefixOf st) && !st.isEmpty && decide (0 < bc2) then [j] else [])
            ++ (fixAllScan rs (j + 1) bc2).1,
          (fixAllScan rs (j + 1) bc2).2)

/-- Outer loop of `fix_all_socket_orphans.fix_file`: `i` walks every line; at a
marker line the collected indices are commented in place, and the walk resumes
at `i + 1` on the mutated document.  `fuel` only bounds the recursion; the
index advances by one each step, so `doc.length + 1` is always enough. -/
def fixAllGo : Nat → Doc → Nat → Bool → (Doc × Bool)
  | 0, doc, _, m => (doc, m)
  | n + 1, doc, i, m =>
    match doc.get? i with
    | none => (doc, m)
    | some line =>
      if isOrphanMarker line then
        let idxs := (fixAllScan (doc.drop (i + 1)) (i + 1) 1).1
        fixAllGo n (commentAll doc idxs) (i + 1) (m || !idxs.isEmpty)
      else fixAllGo n doc (i + 1) m

/-- `fix_all_socket_orphans.fix_file` on a document: the transformed lines and
whether the file would be rewritten (`modified`). -/
def fixAllFile (doc : Doc) : Doc × Bool := fixAllGo (doc.length + 1) doc 0 false

/-- The property scan of `migrate_to_ably.migrate_socket_to_ably`
(lines 102-135): from `k = j + 1` with `brace_count = 1`, a line whose stripped
form does not start with `//` is skipped outright (no brace counting, no
property); otherwise the comment prefix is removed, braces are counted on the
re-stripped remainder, and the remainder is collected as a property (with the
original line's indentation) while the counter stays positive and the text is
not a bare `\x7d` or `\x7d);`.  Returns Python's final `k` and the collected
properties; `k` stays on the closing line at a `break`, and is one past the
last examined line when the `while` guard stops the loop. -/
def ablyScan : Doc → Nat → Int → List (Nat × Line) → (Nat × List (Nat × Line))
  | [], k, _, acc => (k, acc)
  | r :: rs, k, bc, acc =>
    if bc ≤ 0 then (k, acc)
    else
      let ps := pyStrip r
      if !(("//".data).isPrefixOf ps) then ablyScan rs (k + 1) bc acc
      else
        let unc := pyStrip (ps.drop 2)
        let bc2 := bc + (pyCount unc '\x7b' : Int) - (pyCount unc '\x7d' : Int)
        let acc2 :=
          if !unc.isEmpty && decide (0 < bc2) && !(unc == ("\x7d").data)
              && !(unc == ("\x7d);").data) then
            acc ++ [(indentOf r, unc)]
          else acc
        if bc2 = 0 then (k, acc2) else ablyScan rs (k + 1) bc2 acc2

/-- First generated line of the `migrate_to_ably` replacement block. -/
def ablyHeadLine (istr : Line) : Line := istr ++ ("// Publish to Ably real-time channel".data)

/-- Second generated line: `try \x7b`. -/
def ablyTryLine (istr : Line) : Line := istr ++ ("try \x7b".data)

/-- Generated publish invocation: note the extracted channel and event are
re-wrapped in single quotes. -/
def ablyAwaitLine (istr ch ev : Line) : Line :=
  istr ++ ("  await publishToChannel('".data) ++ ch ++ ("', '".data) ++ ev ++ ("', \x7b".data)

/-- Generated payload line: marker indentation plus four spaces (the collected
per-property indentation is ignored by the script). -/
def ablyPayloadLine (istr p : Line) : Line := istr ++ ("    ".data) ++ p

/-- Generated `\x7d);` closing the payload object. -/
def ablyCloseLine (istr : Line) : Line := istr ++ ("  \x7d);".data)

/-- Generated `\x7d catch (ablyError) \x7b`. -/
def ablyCatchLine (istr : Line) : Line := istr ++ ("\x7d catch (ablyError) \x7b".data)

/-- Generated diagnostic call of the catch branch: a fixed message that does
not mention the extracted event name. -/
def ablyConsoleLine (istr : Line) : Line :=
  istr ++ ("  console.error('Failed to publish to Ably:', ablyError.message);".data)

/-- Generated final `\x7d`. -/
def ablyEndLine (istr : Line) : Line := istr ++ ("\x7d".data)

/-- The replacement block of `migrate_to_ably.migrate_socket_to_ably`
(lines 142-154), assembled exactly as the script's f-strings do. -/
def ablyReplLines (istr ch ev : Line) (props : List (Nat × Line)) : Doc :=
  [ablyHeadLine istr, ablyTryLine istr, ablyAwaitLine istr ch ev]
    ++ props.map (fun p => ablyPayloadLine istr p.2)
    ++ [ablyCloseLine istr, ablyCatchLine istr, ablyConsoleLine istr, ablyEndLine istr]

/-- The `j`-scan of `migrate_to_ably.migrate_socket_to_ably` (lines 84-168):
from `j = i + 1`, look for a stripped line starting with `//` and containing
`io.to(` and `.emit(` whose text one of the two regexes matches; stop with
`none` after `j - i` would exceed 50 (the bound is tested after `j += 1`).
Returns `j` and the two captured groups. -/
def ablyFindGo : Nat → Doc → Nat → Nat → Option (Nat × Line × Line)
  | 0, _, _, _ => none
  | f + 1, doc, i, j =>
    match doc.get? j with
    | none => none
    | some nl =>
      let st := pyStrip nl
      if ("//".data).isPrefixOf st && pyIn ("io.to(".data) st && pyIn (".emit(".data) st then
        match rx1 st with
        | some (ch, ev) => some (j, ch, ev)
        | none =>
          match rx2 st with
          | some (ch, ev) => some (j, ch, ev)
          | none => if j + 1 - i > 50 then none else ablyFindGo f doc i (j + 1)
      else if j + 1 - i > 50 then none else ablyFindGo f doc i (j + 1)

/-- Outer loop of `migrate_to_ably.migrate_socket_to_ably`: at each line
containing `// TODO: Replace with Ably`, find the commented emit, scan its
properties, splice `lines[i:k+1] = replacement`, and resume at
`i + len(replacement) + 1` (the script's `i += len(replacement)` followed by
the loop's `i += 1`).  `fuel` only bounds the recursion: the distance from `i`
to the end of the document shrinks every step. -/
def ablyGo : Nat → Doc → Nat → Bool → (Doc × Bool)
  | 0, doc, _, m => (doc, m)
  | n + 1, doc, i, m =>
    match doc.get? i with
    | none => (doc, m)
    | some line =>
      if pyIn ("// TODO: Replace with Ably".data) line then
        match ablyFindGo 51 doc i (i + 1) with
        | some (j, ch, ev) =>
          let kp := ablyScan (doc.drop (j + 1)) (j + 1) 1 []
          let repl := ablyReplLines (spaces (indentOf (doc.getD j []))) ch ev kp.2
          ablyGo n (doc.take i ++ repl ++ doc.drop (kp.1 + 1)) (i + repl.length + 1) true
        | none => ablyGo n doc (i + 1) m
      else ablyGo n doc (i + 1) m

/-- `migrate_to_ably.migrate_socket_to_ably` on a document: the transformed
lines and whether the file would be rewritten. -/
def migrateSocketToAbly (doc : Doc) : Doc × Bool := ablyGo (doc.length + 1) doc 0 false

/-- The stop condition of `fix_socket_comments.fix_file` (line 36): an empty
line, an already-commented line, or a line starting a new statement
(`res.`, `await`, `const`, `let`, `var`) ends the inner scan. -/
def isC7Stop (st : Line) : Bool :=
  st.isEmpty || ("//".data).isPrefixOf st || ("res.".data).isPrefixOf st
    || ("await".data).isPrefixOf st || ("const".data).isPrefixOf st
    || ("let".data).isPrefixOf st || ("var".data).isPrefixOf st

/-- Inner scan of `fix_socket_comments.fix_file` (lines 22-45) over the lines
after a marker: comment a terminating `\x7d);` line and stop; stop without
touching anything further at a stop line; otherwise comment the line in place
when it has a `:`, is a bare `\x7d`, or ends in a comma, and continue.  The
Boolean records whether any line was commented (Python's `modified`). -/
def fixCommentsScan : Doc → (Doc × Bool)
  | [] => ([], false)
  | r :: rs =>
    let st := pyStrip r
    if st == ("\x7d);").data then (commentLine r :: rs, true)
    else if isC7Stop st then (r :: rs, false)
    else
      let hit := st.contains ':' || st == ("\x7d").data || (",".data).isSuffixOf st
      ((if hit then commentLine r else r) :: (fixCommentsScan rs).1,
        hit || (fixCommentsScan rs).2)

/-- Outer loop of `fix_socket_comments.fix_file`: the marker test is the pair
of substring checks `'//     io.to(' in line or '//   io.to(' in line`. -/
def fixCommentsGo : Nat → Doc → Nat → Bool → (Doc × Bool)
  | 0, doc, _, m => (doc, m)
  | n + 1, doc, i, m =>
    match doc.get? i with
    | none => (doc, m)
    | some line =>
      if pyIn ("//     io.to(".data) line || pyIn ("//   io.to(".data) line then
        let res := fixCommentsScan (doc.drop (i + 1))
        fixCommentsGo n (doc.take (i + 1) ++ res.1) (i + 1) (m || res.2)
      else fixCommentsGo n doc (i + 1) m

/-- `fix_socket_comments.fix_file` on a document. -/
def fixCommentsFile (doc : Doc) : Doc × Bool := fixCommentsGo (doc.length + 1) doc 0 false

/-- `migrate_todos.extract_channel_and_event`: first line on which the regex
matches yields the pair (channel verbatim, event); `none` for Python's
`(None, None)`. -/
def extractChannelAndEvent : Doc → Option (Line × Line)
  | [] => none
  | l :: ls =>
    match rxTodos l with
    | some r => some r
    | none => extractChannelAndEvent ls

/-- Body of `migrate_todos.extract_payload`: the Boolean is `in_payload`. -/
def extractPayloadGo : Doc → Bool → List Line
  | [], _ => []
  | l :: ls, inp =>
    if l.contains '\x7b' && !inp then extractPayloadGo ls true
    else if pyIn ("\x7d);".data) l then []
    else if inp then
      let clean := pyStrip l
      let clean2 := if ("//".data).isPrefixOf clean then pyStrip (clean.drop 2) else clean
      (if !clean2.isEmpty && !(("//".data).isPrefixOf clean2) then [clean2] else [])
        ++ extractPayloadGo ls true
    else extractPayloadGo ls false

/-- `migrate_todos.extract_payload`. -/
def extractPayload (ls : Doc) : List Line := extractPayloadGo ls false

/-- Block collection of `migrate_todos.migrate_file` (lines 68-74): gather the
lines after the TODO line while each strips to a comment or to empty, stopping
right after a line containing `\x7d);`.  Returns the gathered lines and how
many were consumed. -/
def todosCollect : Doc → (List Line × Nat)
  | [] => ([], 0)
  | l :: ls =>
    let st := pyStrip l
    if ("//".data).isPrefixOf st || st.isEmpty then
      if pyIn ("\x7d);".data) l then ([l], 1)
      else ((l :: (todosCollect ls).1), (todosCollect ls).2 + 1)
    else ([], 0)

/-- Generated `try \x7b` line of the `migrate_todos` replacement. -/
def todosTryLine (istr : Line) : Line := istr ++ ("try \x7b".data)

/-- Generated publish invocation of `migrate_todos`: the channel expression is
spliced verbatim (no re-quoting), the event is single-quoted. -/
def todosAwaitLine (istr ch ev : Line) : Line :=
  istr ++ ("  await publishToChannel(".data) ++ ch ++ (", '".data) ++ ev ++ ("', \x7b".data)

/-- Generated payload line of `migrate_todos`. -/
def todosPayloadLine (istr p : Line) : Line := istr ++ ("    ".data) ++ p

/-- Generated diagnostic call of `migrate_todos`: mentions the event name and
the caught error's message. -/
def todosLoggerLine (istr ev : Line) : Line :=
  istr ++ ("  logger.error('Failed to publish ".data) ++ ev
    ++ (" to Ably:', ablyError.message);".data)

/-- The replacement block of `migrate_todos.migrate_file` (lines 86-93). -/
def todosReplLines (istr ch ev : Line) (payload : List Line) : Doc :=
  [todosTryLine istr, todosAwaitLine istr ch ev]
    ++ payload.map (fun p => todosPayloadLine istr p)
    ++ [istr ++ ("  \x7d);".data), istr ++ ("\x7d catch (ablyError) \x7b".data),
        todosLoggerLine istr ev, istr ++ ("\x7d".data)]

/-- Outer loop of `migrate_todos.migrate_file`: `acc` is `new_lines`, `c` the
replacement count.  A TODO line whose block yields a nonempty channel and event
is replaced (and the block skipped, `i = j`); otherwise the line is copied. -/
def todosGo : Nat → Doc → Nat → Doc → Nat → (Doc × Nat)
  | 0, _, _, acc, c => (acc, c)
  | n + 1, doc, i, acc, c =>
    match doc.get? i with
    | none => (acc, c)
    | some line =>
      if pyIn ("TODO: Replace with Ably".data) line then
        let col := todosCollect (doc.drop (i + 1))
        let block := line :: col.1
        match extractChannelAndEvent block with
        | some (ch, ev) =>
          if !ch.isEmpty && !ev.isEmpty then
            todosGo n doc (i + 1 + col.2)
              (acc ++ todosReplLines (spaces (indentOf line)) ch ev (extractPayload block))
              (c + 1)
          else todosGo n doc (i + 1) (acc ++ [line]) c
        | none => todosGo n doc (i + 1) (acc ++ [line]) c
      else todosGo n doc (i + 1) (acc ++ [line]) c

/-- `migrate_todos.migrate_file` on a document: the new lines and the number of
replaced blocks (the file is rewritten when the count is positive). -/
def migrateTodosFile (doc : Doc) : Doc × Nat := todosGo (doc.length + 1) doc 0 [] 0

/-- `'require(' in line and not line.strip().startswith('//')`: the lines that
`migrate_to_ably.add_ably_import` counts as require statements. -/
def requireLine (l : Line) : Bool :=
  pyIn ("require(".data) l && !(("//".data).isPrefixOf (pyStrip l))

/-- The `for i, line in enumerate(lines)` loop of `add_ably_import` recording
the index of the last require line into `last_require_index` (initially -1). -/
def lastRequireAux : Doc → Nat → Int → Int
  | [], _, acc => acc
  | l :: ls, i, acc => lastRequireAux ls (i + 1) (if requireLine l then (i : Int) else acc)

/-- `last_require_index` after the first loop of `add_ably_import`. -/
def lastRequireIdx (doc : Doc) : Int := lastRequireAux doc 0 (-1)

/-- The fallback test of `add_ably_import` (line 49): the first line that is
not a `//`, `/*` or `*` comment and is nonempty. -/
def codeStart (l : Line) : Bool :=
  let st := pyStrip l
  !(("//".data).isPrefixOf st) && !(("/*".data).isPrefixOf st)
    && !(("*".data).isPrefixOf st) && !st.isEmpty

/-- The fallback loop of `add_ably_import`: `last_require_index = i - 1` at the
first code line, `-1` if there is none. -/
def firstCodeIdx : Doc → Nat → Int
  | [], _ => -1
  | l :: ls, i => if codeStart l then (i : Int) - 1 else firstCodeIdx ls (i + 1)

/-- The import inserted for files under `routes/`. -/
def ablyImportLine : Line :=
  ("const \x7b publishToChannel \x7d = require('../utils/ably-adapter');").data

/-- The insertion index `last_require_index + 1` of `add_ably_import` (the
fallback index is used when no require line exists). -/
def insertPos (doc : Doc) : Nat :=
  ((if lastRequireIdx doc = -1 then firstCodeIdx doc 0 else lastRequireIdx doc) + 1).toNat

/-- Python `lines.insert(pos, x)` for `pos ≤ len(lines)`. -/
def pyInsert (doc : Doc) (pos : Nat) (x : Line) : Doc :=
  doc.take pos ++ x :: doc.drop pos

/-- `migrate_to_ably.add_ably_import` on a document (routes variant): no-op
when the joined content already mentions `ably-adapter` or `ably-publish`,
otherwise insert the import after the last require line (`insertPos` is at
most the length of the document, so Python's `insert` does not clamp). -/
def addAblyImport (doc : Doc) : Doc × Bool :=
  if pyIn ("ably-adapter".data) (joinLines doc) || pyIn ("ably-publish".data) (joinLines doc)
  then (doc, false)
  else (pyInsert doc (insertPos doc) ablyImportLine, true)

example :
    fixAllFile [("//   io.to(a).emit(b, \x7b").data, ("x: 1,").data]
      = ([("//   io.to(a).emit(b, \x7b").data, ("// x: 1,").data], true) := by decide

example :
    fixCommentsFile [("//   io.to(stream).emit('update', \x7b").data,
        ("viewerCount: 5,").data, [], ("\x7d);").data]
      = ([("//   io.to(stream).emit('update', \x7b").data,
          ("// viewerCount: 5,").data, [], ("\x7d);").data], true) := by decide

example :
    addAblyImport [("// header").data, ("const a = require('a');").data,
        ("const b = 1;").data]
      = ([("// header").data, ("const a = require('a');").data, ablyImportLine,
          ("const b = 1;").data], true) := by decide

/-- Two adjacent TODO blocks: after the first is replaced, the outer loop's
`i += len(replacement)` followed by `i += 1` skips the line holding the second
TODO marker, so the second block survives the first run. -/
def dC1 : Doc :=
  [("// TODO: Replace with Ably").data,
   ("// io.to(\x60ch\x60).emit('ev', \x7b").data,
   ("// a: 1").data,
   ("// \x7d);").data,
   ("// TODO: Replace with Ably").data,
   ("// io.to(\x60ch2\x60).emit('ev2', \x7b").data,
   ("// b: 2").data,
   ("// \x7d);").data]

/-- A truncated block: the marker's brace is never closed. -/
def dC2 : Doc := [("//   io.to(a).emit(b, \x7b").data, ("x: 1,").data]

/-- The input of the field-fidelity property. -/
def dC3 : Doc :=
  [("// io.to('room:42').emit('update', \x7b").data,
   ("// foo: bar,").data,
   ("// \x7d);").data]

/-- A block with a template-literal (interpolated) channel expression. -/
def dC5 : Doc :=
  [("// TODO: Replace with Ably").data,
   ("// io.to(\x60user:$\x7buserId\x7d\x60).emit('update', \x7b").data,
   ("// a: 1,").data,
   ("// \x7d);").data]

/-- A block with a single-quoted literal channel expression. -/
def dC5b : Doc :=
  [("// TODO: Replace with Ably").data,
   ("// io.to('room:42').emit('update', \x7b").data,
   ("// a: 1,").data,
   ("// \x7d);").data]

/-- A block whose event name (`scoreChanged`) does not occur in the fixed
diagnostic text of the generated catch branch. -/
def dC6 : Doc :=
  [("// TODO: Replace with Ably").data,
   ("// io.to(\x60game\x60).emit('scoreChanged', \x7b").data,
   ("// s: 2,").data,
   ("// \x7d);").data]

/-- A candidate block whose scan hits an empty line before the closing
`\x7d);`: the content line before the empty line is still commented. -/
def dC7 : Doc :=
  [("//   io.to(stream).emit('update', \x7b").data,
   ("viewerCount: 5,").data,
   [],
   ("\x7d);").data]

/-- A block at indentation 2 with one payload property. -/
def dC9 : Doc :=
  [("  // TODO: Replace with Ably").data,
   ("  // io.to(\x60room\x60).emit('tick', \x7b").data,
   ("  //   n: 1,").data,
   ("  // \x7d);").data]

/-- A block containing an uncommented line (`orphan: 1,`) between commented
payload lines. -/
def dC10 : Doc :=
  [("// TODO: Replace with Ably").data,
   ("// io.to(\x60c\x60).emit('e', \x7b").data,
   ("orphan: 1,").data,
   ("// a: 2,").data,
   ("// \x7d);").data]

/-- Witness document for the span property: a balanced block of nesting
depth 5 (four nested opens after the marker's brace, then five closes). -/
def wC4 : Doc :=
  [("// \x7b").data, ("// \x7b").data, ("// \x7b").data, ("// \x7b").data,
   ("// x: 1,").data,
   ("// \x7d").data, ("// \x7d").data, ("// \x7d").data, ("// \x7d").data,
   ("// \x7d);").data]

/-- Witness document for the import-insertion property. -/
def wC8 : Doc :=
  [("// header").data, ("const a = require('a');").data, ("const b = 1;").data]

/-- The value of `brace_count` of `fix_all_socket_orphans.fix_file` before
processing line `m` of the block body `ls`, when it started at `bc`: `bc` plus
the net braces of the first `m` lines. -/
def depthFromAux (bc : Int) (ls : Doc) (m : Nat) : Int :=
  bc + ((ls.take m).map netBraces).sum

theorem depthFromAux_zero (bc : Int) (ls : Doc) : depthFromAux bc ls 0 = bc := by
  simp [depthFromAux]

theorem depthFromAux_cons (bc : Int) (r : Line) (rs : Doc) (m : Nat) :
    depthFromAux bc (r :: rs) (m + 1) = depthFromAux (bc + netBraces r) rs m := by
  simp [depthFromAux]
  ring

/-- The brace scan of `fix_all_socket_orphans.fix_file` stops exactly at the
first line at which the running depth reaches zero, and reports that line as
the block's closing line. -/
theorem fixAllScan_closes :
    ∀ (ls : Doc) (t j : Nat) (bc : Int),
      (∀ m, m ≤ t → 0 < depthFromAux bc ls m) →
      depthFromAux bc ls (t + 1) = 0 →
      t < ls.length →
      (fixAllScan ls j bc).2 = some (j + t)
  | [], t, _, _, _, _, ht => absurd ht (by simp)
  | r :: rs, t, j, bc, hpos, hzero, ht => by
    have hbc : 0 < bc := by
      have := hpos 0 (Nat.zero_le t)
      rwa [depthFromAux_zero] at this
    cases t with
    | zero =>
      have h1 : bc + netBraces r = 0 := by
        have := hzero
        rwa [depthFromAux_cons, depthFromAux_zero] at this
      simp [fixAllScan, not_le.mpr hbc, h1]
    | succ s =>
      have h1 : 0 < bc + netBraces r := by
        have := hpos 1 (by omega)
        rwa [depthFromAux_cons, depthFromAux_zero] at this
      have h2 : (fixAllScan rs (j + 1) (bc + netBraces r)).2 = some (j + 1 + s) :=
        fixAllScan_closes rs s (j + 1) (bc + netBraces r)
          (fun m hm => by
            have := hpos (m + 1) (by omega)
            rwa [depthFromAux_cons] at this)
          (by
            have := hzero
            rwa [depthFromAux_cons] at this)
          (by simpa using Nat.lt_of_succ_lt_succ (by simpa using ht))
      simp only [fixAllScan, not_le.mpr hbc, if_neg, ite_false, if_false]
      rw [if_neg (by omega : ¬ bc + netBraces r = 0)]
      simpa [Nat.add_assoc, Nat.add_comm, Nat.add_left_comm] using h2

theorem indentOf_cons (c : Char) (l : Line) :
    indentOf (c :: l) = if pyWS c then indentOf l + 1 else 0 := by
  by_cases h : pyWS c <;> simp [indentOf, List.takeWhile_cons, h]

theorem indentOf_spaces_append (n : Nat) (l : Line) :
    indentOf (spaces n ++ l) = n + indentOf l := by
  induction n with
  | zero => simp [spaces]
  | succ k ih =>
    have hsp : spaces (k + 1) ++ l = ' ' :: (spaces k ++ l) := by
      simp [spaces, List.replicate_succ]
    rw [hsp, indentOf_cons, if_pos (by decide), ih]
    omega

theorem indentOf_append_of_lt (a b : Line) (h : indentOf a < a.length) :
    indentOf (a ++ b) = indentOf a := by
  induction a with
  | nil => simp [indentOf] at h
  | cons c l ih =>
    by_cases hc : pyWS c
    · rw [indentOf_cons, if_pos hc] at h
      rw [List.cons_append, indentOf_cons, if_pos hc, indentOf_cons, if_pos hc,
        ih (by simpa using Nat.lt_of_succ_lt_succ (by simpa using h))]
    · rw [List.cons_append, indentOf_cons, if_neg hc, indentOf_cons, if_neg hc]

theorem pyIn_iff (n h : Line) : pyIn n h = true ↔ n <:+: h := by
  simp [pyIn]

theorem sub_append_left (n s t : Line) (h : n <:+: t) : n <:+: s ++ t := by
  obtain ⟨u, v, huv⟩ := h
  exact ⟨s ++ u, v, by simp [← huv]⟩

/-- Every line of a document is a contiguous substring of the joined content. -/
theorem sub_of_mem_joinLines (l : Line) :
    ∀ ds : Doc, l ∈ ds → l <:+: joinLines ds
  | [], h => absurd h (List.not_mem_nil l)
  | [x], h => by
    rcases List.mem_singleton.mp h with rfl
    exact ⟨[], [], by simp [joinLines]⟩
  | x :: y :: ys, h => by
    rcases List.mem_cons.mp h with rfl | h2
    · exact ⟨[], '\n' :: joinLines (y :: ys), by simp [joinLines]⟩
    · obtain ⟨s, t, hst⟩ := sub_of_mem_joinLines l (y :: ys) h2
      exact ⟨x ++ '\n' :: s, t, by simp [joinLines, ← hst]⟩

/-- If no line of `ls` passes the require test, the enumerate loop leaves
`last_require_index` at its initial value. -/
theorem lastRequireAux_none :
    ∀ (ls : Doc) (i : Nat) (acc : Int),
      (∀ m, m < ls.length → requireLine (ls.getD m []) = false) →
      lastRequireAux ls i acc = acc
  | [], _, _, _ => rfl
  | l :: ls, i, acc, h => by
    have h0 : requireLine l = false := by simpa using h 0 (by simp)
    rw [lastRequireAux, h0]
    exact lastRequireAux_none ls (i + 1) acc
      (fun m hm => by simpa using h (m + 1) (by simpa using Nat.succ_lt_succ hm))

/-- If line `r` passes the require test and no later line does, the enumerate
loop ends with `last_require_index` at `r`'s index. -/
theorem lastRequireAux_spec :
    ∀ (ls : Doc) (i : Nat) (acc : Int) (r : Nat),
      r < ls.length →
      requireLine (ls.getD r []) = true →
      (∀ m, m < ls.length → r < m → requireLine (ls.getD m []) = false) →
      lastRequireAux ls i acc = ((i + r : Nat) : Int)
  | [], _, _, r, hr, _, _ => absurd hr (by simp)
  | l :: ls, i, acc, 0, _, hreq, hafter => by
    have h0 : requireLine l = true := by simpa using hreq
    rw [lastRequireAux, h0, if_pos rfl]
    rw [lastRequireAux_none ls (i + 1) (i : Int)
      (fun m hm => by
        simpa using hafter (m + 1) (by simpa using Nat.succ_lt_succ hm) (Nat.succ_pos m))]
    simp
  | l :: ls, i, acc, r + 1, hr, hreq, hafter => by
    rw [lastRequireAux]
    rw [lastRequireAux_spec ls (i + 1) (if requireLine l then (i : Int) else acc) r
      (by simpa using Nat.lt_of_succ_lt_succ (by simpa using hr))
      (by simpa using hreq)
      (fun m hm hrm => by
        simpa using hafter (m + 1) (by simpa using Nat.succ_lt_succ hm)
          (Nat.succ_lt_succ hrm))]
    congr 1
    omega

/-- If line `q` is the first code line, the fallback loop of `add_ably_import`
returns `q - 1`. -/
theorem firstCodeIdx_spec :
    ∀ (ls : Doc) (i : Nat) (q : Nat),
      q < ls.length →
      codeStart (ls.getD q []) = true →
      (∀ m, m < q → codeStart (ls.getD m []) = false) →
      firstCodeIdx ls i = ((i + q : Nat) : Int) - 1
  | [], _, q, hq, _, _ => absurd hq (by simp)
  | l :: ls, i, 0, _, hcode, _ => by
    have h0 : codeStart l = true := by simpa using hcode
    rw [firstCodeIdx, h0]
    simp
  | l :: ls, i, q + 1, hq, hcode, hbefore => by
    have h0 : codeStart l = false := by simpa using hbefore 0 (Nat.succ_pos q)
    rw [firstCodeIdx, h0, if_neg (by decide)]
    rw [firstCodeIdx_spec ls (i + 1) q
      (by simpa using Nat.lt_of_succ_lt_succ (by simpa using hq))
      (by simpa using hcode)
      (fun m hm => by simpa using hbefore (m + 1) (Nat.succ_lt_succ hm))]
    congr 2
    omega

/-- C1: the claim states that re-running the per-file transform on the output
of a previous successful run detects zero markers, modifies no line, and
performs no write.  This fails on the code: on `dC1` the first run of
`migrate_socket_to_ably` replaces the first block, but `i += len(replacement)`
followed by the loop's `i += 1` skips the line immediately after the
replacement, which holds the second TODO marker, so the second block survives;
the second run then detects it, modifies the document, and writes again. -/
theorem c1_rerun_modifies :
    (migrateSocketToAbly dC1).2 = true ∧
    (migrateSocketToAbly (migrateSocketToAbly dC1).1).2 = true ∧
    (migrateSocketToAbly (migrateSocketToAbly dC1).1).1 ≠ (migrateSocketToAbly dC1).1 :=
  ⟨by decide, by decide, by decide⟩

/-- C2: the claim states that a block whose delimiter depth never returns to
zero is left unmodified.  This fails on the code: on `dC2` the brace count of
the truncated block never reaches zero (the scan returns no closing line), yet
`fix_all_socket_orphans.fix_file` comments the collected content line and
reports the file modified. -/
theorem c2_malformed_block_modified :
    (fixAllScan (dC2.drop 1) 1 1).2 = none ∧
    fixAllFile dC2
      = ([("//   io.to(a).emit(b, \x7b").data, ("// x: 1,").data], true) :=
  ⟨by decide, by decide⟩

/-- C3: on the marker line `// io.to('room:42').emit('update', \x7b` followed
by `// foo: bar,` and `// \x7d);`, the field parser of `migrate_todos.py`
returns the channel expression `'room:42'` (verbatim, quotes included), the
event `update`, and the single payload fragment `foo: bar,`, by literal string
equality. -/
theorem c3_field_fidelity :
    extractChannelAndEvent dC3 = some (("'room:42'").data, ("update").data) ∧
    extractPayload dC3 = [("foo: bar,").data] :=
  ⟨by decide, by decide⟩

/-- C4: the block extractor of `fix_all_socket_orphans.fix_file`, starting its
counter at 1 and adding each line's open-brace count and subtracting its
close-brace count, reports as the block's closing line exactly the first line
at which the running depth reaches zero (the terminating line is included in
the span: the reported index is that line's own index).  The hypotheses say
precisely that the depth is positive before line `t` and zero after processing
line `t`, which holds for every balanced nesting (any depth N, in particular
N = 1, 2, 5). -/
theorem c4_extractor_first_zero (ls : Doc) (t j : Nat)
    (hpos : ∀ m, m ≤ t → 0 < depthFromAux 1 ls m)
    (hzero : depthFromAux 1 ls (t + 1) = 0)
    (ht : t < ls.length) :
    (fixAllScan ls j 1).2 = some (j + t) :=
  fixAllScan_closes ls t j 1 hpos hzero ht

/-- Witness for C4 at a concrete balanced block of nesting depth 5 (`wC4`):
the span closes at the tenth body line, index 10 when the body starts at
index 1. -/
theorem c4_witness : (fixAllScan wC4 1 1).2 = some 10 :=
  c4_extractor_first_zero wC4 9 1 (by decide) (by decide) (by decide)

/-- C5: the claim states that the rewriter reproduces the recovered channel
expression verbatim, whether quoted literal or backtick-interpolated.  This
fails on `migrate_to_ably.migrate_socket_to_ably`: on `dC5` the interpolated
channel `\x60user:$\x7buserId\x7d\x60` is emitted re-quoted as the
single-quoted literal `'user:$\x7buserId\x7d'` (the backticks are stripped by
the capture group and replaced by quotes in the f-string); and on `dC5b` a
single-quoted channel is not even extracted (both regexes fail), so the block
is left untouched instead of being migrated. -/
theorem c5_channel_requoted :
    migrateSocketToAbly dC5
      = ([("// Publish to Ably real-time channel").data,
          ("try \x7b").data,
          ("  await publishToChannel('user:$\x7buserId\x7d', 'update', \x7b").data,
          ("    a: 1,").data,
          ("  \x7d);").data,
          ("\x7d catch (ablyError) \x7b").data,
          ("  console.error('Failed to publish to Ably:', ablyError.message);").data,
          ("\x7d").data], true) ∧
    migrateSocketToAbly dC5b = (dC5b, false) :=
  ⟨by decide, by decide⟩

/-- C6 counterexample: the claim states that every generated recoverable-
failure branch logs both the event name and the failure's message.  On `dC6`
(event `scoreChanged`) the catch branch generated by
`migrate_to_ably.migrate_socket_to_ably` is the fixed text
`console.error('Failed to publish to Ably:', ablyError.message);`, which
mentions the failure's message but not the event name. -/
theorem c6_counterexample :
    (migrateSocketToAbly dC6).1.get? 6 = some (ablyConsoleLine []) ∧
    pyIn (("scoreChanged").data) (ablyConsoleLine []) = false ∧
    pyIn (("ablyError.message").data) (ablyConsoleLine []) = true ∧
    (migrateSocketToAbly dC6).2 = true :=
  ⟨by decide, by decide, by decide, by decide⟩

/-- C6 amended: the `migrate_todos.py` rewriter's diagnostic call includes
both the extracted event name and the caught failure's message; the
`migrate_to_ably.py` rewriter's diagnostic call includes the failure's message
but is a fixed text that does not depend on the event.  Both lines are part of
the respective generated replacement blocks. -/
theorem c6_amended (istr ch ev : Line) (props : List (Nat × Line)) (payload : List Line) :
    pyIn ev (todosLoggerLine istr ev) = true ∧
    pyIn (("ablyError.message").data) (todosLoggerLine istr ev) = true ∧
    todosLoggerLine istr ev ∈ todosReplLines istr ch ev payload ∧
    ablyConsoleLine istr ∈ ablyReplLines istr ch ev props ∧
    pyIn (("ablyError.message").data) (ablyConsoleLine istr) = true := by
  refine ⟨?_, ?_, ?_, ?_, ?_⟩
  · rw [pyIn_iff]
    exact ⟨istr ++ ("  logger.error('Failed to publish ").data,
      (" to Ably:', ablyError.message);").data, rfl⟩
  · rw [pyIn_iff]
    exact sub_append_left _ ((istr ++ ("  logger.error('Failed to publish ").data) ++ ev)
      ((" to Ably:', ablyError.message);").data) (by decide)
  · simp [todosReplLines]
  · simp [ablyReplLines]
  · rw [pyIn_iff]
    exact sub_append_left _ istr
      (("  console.error('Failed to publish to Ably:', ablyError.message);").data) (by decide)

/-- C7 counterexample: the claim states that a scan hitting an empty line (or
a new-statement line) before the block closes leaves every line of the
candidate block unmodified.  On `dC7` the scan of
`fix_socket_comments.fix_file` does stop at the empty line, but the content
line before it has already been commented in place, and the file is reported
modified. -/
theorem c7_counterexample :
    fixCommentsFile dC7
      = ([("//   io.to(stream).emit('update', \x7b").data,
          ("// viewerCount: 5,").data,
          [],
          ("\x7d);").data], true) := by
  decide

/-- C7 amended: when the scan of `fix_socket_comments.fix_file` meets a stop
line (empty, already commented, or starting with `res.`, `await`, `const`,
`let` or `var`) that is preceded by no stop line and no `\x7d);` line, the
scan terminates there: the stop line and every later line are left exactly as
they were.  (Content lines before the stop line may already have been
commented in place; the termination does not roll them back, as the
counterexample shows.) -/
theorem c7_amended :
    ∀ (ls : Doc) (t : Nat),
      t < ls.length →
      isC7Stop (pyStrip (ls.getD t [])) = true →
      (∀ m, m < t → isC7Stop (pyStrip (ls.getD m [])) = false ∧
        pyStrip (ls.getD m []) ≠ ("\x7d);").data) →
      (fixCommentsScan ls).1.drop t = ls.drop t
  | [], t, ht, _, _ => absurd ht (by simp)
  | r :: rs, 0, _, hstop, _ => by
    have h0 : isC7Stop (pyStrip r) = true := by simpa using hstop
    have hne : (pyStrip r == ("\x7d);").data) = false := by
      cases hbeq : pyStrip r == ("\x7d);").data with
      | false => rfl
      | true =>
        have hb2 := eq_of_beq hbeq
        rw [hb2] at h0
        exact absurd h0 (by decide)
    simp [fixCommentsScan, hne, h0]
  | r :: rs, t + 1, ht, hstop, hbefore => by
    obtain ⟨hs0, hne0⟩ := hbefore 0 (Nat.succ_pos t)
    have hs0' : isC7Stop (pyStrip r) = false := by simpa using hs0
    have hne0' : pyStrip r ≠ ("\x7d);").data := by simpa using hne0
    have hbeq : (pyStrip r == ("\x7d);").data) = false := by
      cases hbeq2 : pyStrip r == ("\x7d);").data with
      | false => rfl
      | true => exact absurd (eq_of_beq hbeq2) hne0'
    have ih := c7_amended rs t
      (by simpa using Nat.lt_of_succ_lt_succ (by simpa using ht))
      (by simpa using hstop)
      (fun m hm => by simpa using hbefore (m + 1) (Nat.succ_lt_succ hm))
    simp [fixCommentsScan, hbeq, hs0', ih]

/-- Witness for C7 amended: a content line, then an empty stop line, then the
closing line; the scan leaves the stop line and everything after it
untouched. -/
theorem c7_witness :
    (fixCommentsScan [("x: 1,").data, [], ("\x7d);").data]).1.drop 1
      = [("x: 1,").data, [], ("\x7d);").data].drop 1 :=
  c7_amended [("x: 1,").data, [], ("\x7d);").data] 1 (by decide) (by decide)
    (by decide)

/-- C8: on a document whose content does not mention `ably-adapter` or
`ably-publish` (the script's test for an existing reference to the publish
primitive), `add_ably_import` inserts exactly one import line at
`insertPos doc`; the result has one more line; a second run inserts nothing
(the inserted line itself mentions `ably-adapter`); and the position is
immediately after the last require line when one exists, or at the first code
line (after any leading comment block) when none exists. -/
theorem c8_import_insertion (doc : Doc)
    (h1 : pyIn (("ably-adapter").data) (joinLines doc) = false)
    (h2 : pyIn (("ably-publish").data) (joinLines doc) = false) :
    addAblyImport doc = (pyInsert doc (insertPos doc) ablyImportLine, true) ∧
    (pyInsert doc (insertPos doc) ablyImportLine).length = doc.length + 1 ∧
    addAblyImport (pyInsert doc (insertPos doc) ablyImportLine)
      = (pyInsert doc (insertPos doc) ablyImportLine, false) ∧
    (∀ r : Nat, r < doc.length → requireLine (doc.getD r []) = true →
      (∀ m, m < doc.length → r < m → requireLine (doc.getD m []) = false) →
      insertPos doc = r + 1) ∧
    ((∀ m, m < doc.length → requireLine (doc.getD m []) = false) →
      ∀ q : Nat, q < doc.length → codeStart (doc.getD q []) = true →
      (∀ m, m < q → codeStart (doc.getD m []) = false) →
      insertPos doc = q) := by
  refine ⟨?_, ?_, ?_, ?_, ?_⟩
  · simp [addAblyImport, h1, h2]
  · simp [pyInsert]
    omega
  · have hmem : ablyImportLine ∈ pyInsert doc (insertPos doc) ablyImportLine := by
      simp [pyInsert]
    have hsub : (("ably-adapter").data)
        <:+: joinLines (pyInsert doc (insertPos doc) ablyImportLine) :=
      List.IsInfix.trans (by decide) (sub_of_mem_joinLines _ _ hmem)
    simp [addAblyImport, (pyIn_iff _ _).mpr hsub]
  · intro r hr hreq hafter
    have hlast : lastRequireIdx doc = (r : Int) := by
      simpa [lastRequireIdx] using lastRequireAux_spec doc 0 (-1) r hr hreq hafter
    simp only [insertPos]
    rw [hlast, if_neg (by omega)]
    omega
  · intro hnone q hq hcode hbefore
    have hlast : lastRequireIdx doc = -1 := lastRequireAux_none doc 0 (-1) hnone
    have hfirst : firstCodeIdx doc 0 = (q : Int) - 1 := by
      simpa using firstCodeIdx_spec doc 0 q hq hcode hbefore
    simp only [insertPos]
    rw [hlast, if_pos rfl, hfirst]
    omega

/-- Witness for C8 on `wC8`: the import is inserted (after the single require
line) and a second run is a no-op. -/
theorem c8_witness :
    addAblyImport wC8 = (pyInsert wC8 (insertPos wC8) ablyImportLine, true) ∧
    addAblyImport (pyInsert wC8 (insertPos wC8) ablyImportLine)
      = (pyInsert wC8 (insertPos wC8) ablyImportLine, false) := by
  have h := c8_import_insertion wC8 (by decide) (by decide)
  exact ⟨h.1, h.2.2.1⟩

/-- C9 counterexample: the claim states that every interior generated line
uses the marker line's indentation plus one nesting level.  On `dC9` (marker
indentation 2) the generated publish call sits at indentation 4 (one level of
two spaces), but the generated payload line sits at indentation 6 — two
levels, not one. -/
theorem c9_counterexample :
    (migrateSocketToAbly dC9).1.get? 2
      = some (("    await publishToChannel('room', 'tick', \x7b").data) ∧
    indentOf (("    await publishToChannel('room', 'tick', \x7b").data) = 4 ∧
    (migrateSocketToAbly dC9).1.get? 3 = some (("      n: 1,").data) ∧
    indentOf (("      n: 1,").data) = 6 ∧
    indentOf (dC9.getD 1 []) = 2 :=
  ⟨by decide, by decide, by decide, by decide, by decide⟩

/-- C9 amended: for every indentation width `n` (in particular 0, 2, 4, 8),
the first generated line of either replacement block carries exactly the
marker indentation; the lines one structural level deep (the publish call, the
object's closing `\x7d);` and the diagnostic call) carry the indentation plus
one level of two spaces; and the payload lines carry the indentation plus two
levels (four spaces). -/
theorem c9_amended (n : Nat) (ch ev : Line) (props : List (Nat × Line)) (payload : List Line)
    (hp : ∀ pr ∈ props, indentOf pr.2 = 0)
    (hq : ∀ p ∈ payload, indentOf p = 0) :
    (ablyReplLines (spaces n) ch ev props).head? = some (ablyHeadLine (spaces n)) ∧
    indentOf (ablyHeadLine (spaces n)) = n ∧
    indentOf (ablyAwaitLine (spaces n) ch ev) = n + 2 ∧
    indentOf (ablyCloseLine (spaces n)) = n + 2 ∧
    indentOf (ablyConsoleLine (spaces n)) = n + 2 ∧
    (∀ pr ∈ props, indentOf (ablyPayloadLine (spaces n) pr.2) = n + 4) ∧
    (todosReplLines (spaces n) ch ev payload).head? = some (todosTryLine (spaces n)) ∧
    indentOf (todosTryLine (spaces n)) = n ∧
    indentOf (todosAwaitLine (spaces n) ch ev) = n + 2 ∧
    indentOf (todosLoggerLine (spaces n) ev) = n + 2 ∧
    (∀ p ∈ payload, indentOf (todosPayloadLine (spaces n) p) = n + 4) := by
  have h4 : (("    ").data) = spaces 4 := by decide
  refine ⟨rfl, ?_, ?_, ?_, ?_, ?_, rfl, ?_, ?_, ?_, ?_⟩
  · rw [ablyHeadLine, indentOf_spaces_append,
      show indentOf (("// Publish to Ably real-time channel").data) = 0 from by decide]
    omega
  · rw [ablyAwaitLine]
    simp only [List.append_assoc]
    rw [indentOf_spaces_append, indentOf_append_of_lt _ _ (by decide),
      show indentOf (("  await publishToChannel('").data) = 2 from by decide]
  · rw [ablyCloseLine, indentOf_spaces_append,
      show indentOf (("  \x7d);").data) = 2 from by decide]
  · rw [ablyConsoleLine, indentOf_spaces_append,
      show indentOf (("  console.error('Failed to publish to Ably:', ablyError.message);").data)
        = 2 from by decide]
  · intro pr hpr
    rw [ablyPayloadLine, h4]
    simp only [List.append_assoc]
    rw [indentOf_spaces_append, indentOf_spaces_append, hp pr hpr]
  · rw [todosTryLine, indentOf_spaces_append,
      show indentOf (("try \x7b").data) = 0 from by decide]
    omega
  · rw [todosAwaitLine]
    simp only [List.append_assoc]
    rw [indentOf_spaces_append, indentOf_append_of_lt _ _ (by decide),
      show indentOf (("  await publishToChannel(").data) = 2 from by decide]
  · rw [todosLoggerLine]
    simp only [List.append_assoc]
    rw [indentOf_spaces_append, indentOf_append_of_lt _ _ (by decide),
      show indentOf (("  logger.error('Failed to publish ").data) = 2 from by decide]
  · intro p hpp
    rw [todosPayloadLine, h4]
    simp only [List.append_assoc]
    rw [indentOf_spaces_append, indentOf_spaces_append, hq p hpp]

/-- Witness for C9 amended at indentation 4 with one property and one payload
line. -/
theorem c9_witness :
    indentOf (ablyPayloadLine (spaces 4) (("a: 1,").data)) = 4 + 4 ∧
    indentOf (ablyAwaitLine (spaces 4) ("c").data ("e").data) = 4 + 2 := by
  have h := c9_amended 4 ("c").data ("e").data [(0, ("a: 1,").data)] [("b: 2,").data]
    (by decide) (by decide)
  exact ⟨h.2.2.2.2.2.1 (0, ("a: 1,").data) (by simp), h.2.2.1⟩

set_option maxRecDepth 20000 in
/-- C10: in the payload scan of `migrate_to_ably.migrate_socket_to_ably`, a
line whose stripped form does not start with `//` is skipped entirely: the
scan on the remaining lines proceeds with the same brace count and the same
collected properties (so the line's braces are not counted and it contributes
no fragment), and — as the concrete run on `dC10` shows — the line lies inside
the replaced span, so it is silently absent from the rewritten output. -/
theorem c10_uncommented_skipped :
    (∀ (r : Line) (rs : Doc) (k : Nat) (bc : Int) (acc : List (Nat × Line)),
        0 < bc → (("//".data).isPrefixOf (pyStrip r)) = false →
        ablyScan (r :: rs) k bc acc = ablyScan rs (k + 1) bc acc) ∧
    (migrateSocketToAbly dC10).2 = true ∧
    (∀ l ∈ (migrateSocketToAbly dC10).1, pyIn (("orphan").data) l = false) := by
  refine ⟨?_, by decide, by decide⟩
  intro r rs k bc acc hbc hpre
  rw [ablyScan, if_neg (by omega : ¬ bc ≤ 0)]
  simp [hpre]

/-- Witness for C10: skipping a concrete uncommented line. -/
theorem c10_witness :
    ablyScan ((("orphan: 1,").data) :: [("// \x7d);").data]) 2 1 []
      = ablyScan [("// \x7d);").data] 3 1 [] :=
  c10_uncommented_skipped.1 (("orphan: 1,").data) [("// \x7d);").data] 2 1 []
    (by decide) (by decide)
